/-
Verification of the ai-crawler-monitor core engine (bot detection,
log parsing, cost calculation, recommendation and robots-policy
generation) against its natural-language specification.

Shallow embedding conventions:
- JavaScript numbers are modelled as rationals (ℚ); the double-precision
  limit (2^53) is never approached by any statement proved here.
- JavaScript `Infinity` (used as the last tier bound and as the ROI
  sentinel) is modelled by the type `QInf` below.
- `Map`/object literals iterated in insertion order are modelled as
  association lists in declaration order.
- Regular expressions from the source are translated pattern by pattern
  into executable character-list matchers; each matcher is annotated with
  the regex it embeds.
-/
import Mathlib

/-! ### JavaScript number with positive infinity -/

/-- A JavaScript number that may be `Infinity`: used for tier bounds
(`upToGB: Infinity`) and for the ROI sentinel. -/
inductive QInf
  | fin (q : ℚ)
  | inf
deriving DecidableEq

/-- Strict order on bounds: `fin a < fin b` iff `a < b`; every finite value
is below `inf`. -/
def QInf.ltB : QInf → QInf → Bool
  | .fin a, .fin b => a < b
  | .fin _, .inf => true
  | .inf, _ => false

/-- Models the JavaScript idiom `x || d` on an optional numeric field:
`undefined` and `0` are falsy and fall back to the default. -/
def jsOr (x : Option ℚ) (d : ℚ) : ℚ :=
  match x with
  | some v => if v = 0 then d else v
  | none => d

/-! ### Character-level helpers for the regex translations -/

/-- Lower-cased character list of a string: the `/i` flag is modelled by
comparing lower-cased text on both sides. -/
def charsLower (s : String) : List Char := s.data.map Char.toLower

/-- `startsWithL pat cs` : `cs` begins with `pat`. -/
def startsWithL : List Char → List Char → Bool
  | [], _ => true
  | _ :: _, [] => false
  | p :: ps, c :: cs => p == c && startsWithL ps cs

/-- `hasSubL pat hay` : `pat` occurs contiguously somewhere in `hay`
(an unanchored regex literal match). -/
def hasSubL (pat : List Char) (hay : List Char) : Bool :=
  startsWithL pat hay ||
    match hay with
    | [] => false
    | _ :: cs => hasSubL pat cs

/-- `scanB f cs` : `f` accepts some suffix of `cs` (regex engines try each
start position left to right). -/
def scanB (f : List Char → Bool) (cs : List Char) : Bool :=
  f cs ||
    match cs with
    | [] => false
    | _ :: t => scanB f t

/-- Accepts a (lower-cased) suffix starting with `gptbot/` followed by
`\d+\.\d+` — the body of the regex `/GPTBot\/\d+\.\d+/i`. -/
def gptbotAt (cs : List Char) : Bool :=
  startsWithL (charsLower "GPTBot/") cs &&
    (let rest := cs.drop 7
     let ds := rest.takeWhile Char.isDigit
     !ds.isEmpty &&
       match rest.drop ds.length with
       | '.' :: d :: _ => d.isDigit
       | ['.'] => false
       | _ => false)

/-! ### Bot detector (src/ai-crawler-monitor/lib/bot-detector.ts) -/

/-- The shapes of regex used by the detector: a case-insensitive literal
substring, a case-insensitive alternation of literal substrings, or the
one versioned pattern `/GPTBot\/\d+\.\d+/i`. -/
inductive Pat
  | ci (s : String)
  | ciAlt (ss : List String)
  | gptbotVer
deriving DecidableEq

/-- `RegExp.prototype.test` for the three pattern shapes above. -/
def pmatch : Pat → String → Bool
  | .ci s, ua => hasSubL (charsLower s) (charsLower ua)
  | .ciAlt ss, ua => ss.any fun s => hasSubL (charsLower s) (charsLower ua)
  | .gptbotVer, ua => scanB gptbotAt (charsLower ua)

/-- `interface BotSignature` — category/severity/recommendation kept as the
string literals used in the source. -/
structure BotSignature where
  pattern : Pat
  category : String
  severity : String
  description : String
  recommendation : String
  rateLimit : Option ℚ := none
deriving DecidableEq

/-- `BotDetector.signatures`: the registry in its declaration order
(JavaScript `Map` iterates in insertion order). -/
def signatures : List (String × BotSignature) := [
  ("GPTBot", { pattern := .gptbotVer, category := "ai_training", severity := "high", description := "OpenAI GPT training crawler", recommendation := "rate_limit", rateLimit := some 10 }),
  ("ChatGPT-User", { pattern := .ci "ChatGPT-User", category := "ai_training", severity := "high", description := "ChatGPT web browsing", recommendation := "rate_limit", rateLimit := some 20 }),
  ("Claude-Web", { pattern := .ci "Claude-Web", category := "ai_training", severity := "high", description := "Anthropic Claude crawler", recommendation := "rate_limit", rateLimit := some 10 }),
  ("anthropic-ai", { pattern := .ci "anthropic-ai", category := "ai_training", severity := "high", description := "Anthropic AI bot", recommendation := "rate_limit" }),
  ("Cohere-ai", { pattern := .ci "cohere-ai", category := "ai_training", severity := "medium", description := "Cohere AI training bot", recommendation := "rate_limit" }),
  ("PerplexityBot", { pattern := .ci "PerplexityBot", category := "ai_search", severity := "medium", description := "Perplexity AI search engine", recommendation := "rate_limit", rateLimit := some 30 }),
  ("YouBot", { pattern := .ci "YouBot", category := "ai_search", severity := "medium", description := "You.com search bot", recommendation := "rate_limit" }),
  ("Googlebot", { pattern := .ci "Googlebot", category := "search_engine", severity := "low", description := "Google search crawler", recommendation := "allow" }),
  ("bingbot", { pattern := .ci "bingbot", category := "search_engine", severity := "low", description := "Bing search crawler", recommendation := "allow" }),
  ("Baiduspider", { pattern := .ci "Baiduspider", category := "search_engine", severity := "low", description := "Baidu search crawler", recommendation := "rate_limit", rateLimit := some 20 }),
  ("YandexBot", { pattern := .ci "YandexBot", category := "search_engine", severity := "low", description := "Yandex search crawler", recommendation := "rate_limit" }),
  ("DuckDuckBot", { pattern := .ci "DuckDuckBot", category := "search_engine", severity := "low", description := "DuckDuckGo search crawler", recommendation := "allow" }),
  ("CCBot", { pattern := .ci "CCBot", category := "ai_scraper", severity := "critical", description := "Common Crawl bot - Very aggressive", recommendation := "block" }),
  ("Bytespider", { pattern := .ci "Bytespider", category := "ai_scraper", severity := "critical", description := "ByteDance aggressive crawler", recommendation := "block" }),
  ("PetalBot", { pattern := .ci "PetalBot", category := "scraper", severity := "high", description := "Huawei Petal search crawler", recommendation := "block" }),
  ("MJ12bot", { pattern := .ci "MJ12bot", category := "scraper", severity := "critical", description := "Majestic SEO crawler - Known for aggressive crawling", recommendation := "block" }),
  ("DataForSeoBot", { pattern := .ci "DataForSeoBot", category := "ai_scraper", severity := "high", description := "SEO data scraper", recommendation := "block" }),
  ("SemrushBot", { pattern := .ci "SemrushBot", category := "seo_tool", severity := "medium", description := "Semrush SEO analysis", recommendation := "rate_limit", rateLimit := some 15 }),
  ("AhrefsBot", { pattern := .ci "AhrefsBot", category := "seo_tool", severity := "medium", description := "Ahrefs SEO crawler", recommendation := "rate_limit", rateLimit := some 15 }),
  ("Screaming Frog", { pattern := .ci "Screaming Frog SEO Spider", category := "seo_tool", severity := "medium", description := "SEO audit tool", recommendation := "rate_limit" }),
  ("facebookexternalhit", { pattern := .ci "facebookexternalhit", category := "social_media", severity := "low", description := "Facebook link preview", recommendation := "allow" }),
  ("Twitterbot", { pattern := .ci "Twitterbot", category := "social_media", severity := "low", description := "Twitter/X link preview", recommendation := "allow" }),
  ("LinkedInBot", { pattern := .ci "LinkedInBot", category := "social_media", severity := "low", description := "LinkedIn link preview", recommendation := "allow" }),
  ("WhatsApp", { pattern := .ci "WhatsApp", category := "social_media", severity := "low", description := "WhatsApp link preview", recommendation := "allow" }),
  ("Slackbot", { pattern := .ci "Slackbot", category := "social_media", severity := "low", description := "Slack link preview", recommendation := "allow" }),
  ("UptimeRobot", { pattern := .ci "UptimeRobot", category := "monitoring", severity := "low", description := "Uptime monitoring service", recommendation := "allow" }),
  ("Pingdom", { pattern := .ci "Pingdom", category := "monitoring", severity := "low", description := "Website monitoring", recommendation := "allow" })]

/-- `interface BotDetectionResult`. -/
structure BotDetectionResult where
  isBot : Bool
  botName : Option String
  category : Option String
  severity : Option String
  description : Option String := none
  recommendation : Option String := none
  confidence : ℚ
deriving DecidableEq

/-- The not-a-bot result returned for empty input and for no match at all. -/
def notBotResult : BotDetectionResult :=
  { isBot := false, botName := none, category := none, severity := none, confidence := 1 }

/-- The generic fallback patterns with their fixed confidences, in
declaration order. -/
def genericPatterns : List (Pat × ℚ) := [
  (.ciAlt ["bot", "crawler", "spider", "scraper", "crawl"], 8/10),
  (.ciAlt ["python-requests", "urllib", "wget", "curl", "axios"], 7/10),
  (.ciAlt ["headless", "phantom", "puppeteer", "playwright"], 9/10)]

/-- `BotDetector.detect` — the `for … of` loops over the registry and the
generic patterns return on the first match, i.e. are `List.find?`. -/
def detect (userAgent : String) : BotDetectionResult :=
  if userAgent = "" then notBotResult
  else
    match signatures.find? (fun e => pmatch e.2.pattern userAgent) with
    | some (name, s) =>
      { isBot := true, botName := some name, category := some s.category,
        severity := some s.severity, description := some s.description,
        recommendation := some s.recommendation, confidence := 95/100 }
    | none =>
      match genericPatterns.find? (fun g => pmatch g.1 userAgent) with
      | some (_, conf) =>
        { isBot := true, botName := some "Unknown Bot", category := some "scraper",
          severity := some "medium", description := some "Unidentified bot or scraper",
          recommendation := some "rate_limit", confidence := conf }
      | none => notBotResult

/-- `detect` as invoked with a possibly null/undefined user agent: the
`if (!userAgent)` truthiness test treats those exactly like the empty
string. -/
def detectOpt (userAgent : Option String) : BotDetectionResult :=
  detect (userAgent.getD "")

/-! ### Robots-policy generator (bot-detector.ts, generateRobotsTxt) -/

/-- `BotDetector.generateRobotsTxt`.  The source stamps the output with
`new Date().toISOString()`; that clock reading is the explicit `now`
argument here, since it is the one non-deterministic input of the
function. -/
def generateRobotsTxt (now : String) (blockedBots : List String)
    (rateLimitedBots : List (String × ℚ)) : String :=
  let content := "# AI Crawler Monitor - Generated robots.txt\n" ++ "# Generated: " ++ now ++ "\n\n"
  let content := content ++ "# Search Engines (Allowed)\n"
  let content := content ++ "User-agent: Googlebot\n" ++ "Allow: /\n\n"
  let content := content ++ "User-agent: bingbot\n" ++ "Allow: /\n\n"
  let content :=
    if blockedBots.length > 0 then
      blockedBots.foldl (fun c bot => c ++ ("User-agent: " ++ bot ++ "\n" ++ "Disallow: /\n\n"))
        (content ++ "# Blocked Bots\n")
    else content
  let content :=
    if rateLimitedBots.length > 0 then
      rateLimitedBots.foldl
        (fun c e => c ++ ("User-agent: " ++ e.1 ++ "\n" ++ "Crawl-delay: " ++ toString e.2 ++ "\n" ++ "Allow: /\n\n"))
        (content ++ "# Rate Limited Bots\n")
    else content
  content ++ "# Default\n" ++ "User-agent: *\n" ++ "Allow: /\n" ++ "Sitemap: /sitemap.xml\n"

/-- Concatenation of the rendered pieces of a list, used to state the
section structure of the policy document. -/
def joinMap (f : α → String) : List α → String
  | [] => ""
  | x :: xs => f x ++ joinMap f xs

/-- One disallow block per blocked bot. -/
def disallowBlock (bot : String) : String :=
  "User-agent: " ++ bot ++ "\n" ++ "Disallow: /\n\n"

/-- One crawl-delay directive per rate-limited bot. -/
def crawlDelayBlock (e : String × ℚ) : String :=
  "User-agent: " ++ e.1 ++ "\n" ++ "Crawl-delay: " ++ toString e.2 ++ "\n" ++ "Allow: /\n\n"

/-- Modelled from the spec: the document layout that section 4.6 of the
spec describes — header, explicit allow rules for the two canonical
search engines first, then a disallow block per blocked bot, then a
crawl-delay directive per rate-limited bot, then a default allow-all with
a sitemap pointer.  Stated for comparison with `generateRobotsTxt`. -/
def robotsSpecLayout (now : String) (blockedBots : List String)
    (rateLimitedBots : List (String × ℚ)) : String :=
  ("# AI Crawler Monitor - Generated robots.txt\n" ++ "# Generated: " ++ now ++ "\n\n"
    ++ "# Search Engines (Allowed)\n"
    ++ "User-agent: Googlebot\n" ++ "Allow: /\n\n"
    ++ "User-agent: bingbot\n" ++ "Allow: /\n\n")
  ++ (if blockedBots.length > 0 then "# Blocked Bots\n" ++ joinMap disallowBlock blockedBots else "")
  ++ (if rateLimitedBots.length > 0 then "# Rate Limited Bots\n" ++ joinMap crawlDelayBlock rateLimitedBots else "")
  ++ ("# Default\n" ++ "User-agent: *\n" ++ "Allow: /\n" ++ "Sitemap: /sitemap.xml\n")

/-! ### Log parser (src/ai-crawler-monitor/lib/log-parser.ts)

`LogEntry` fields hold JavaScript runtime values: the JSON branch copies
whatever `JSON.parse` produced (possibly `undefined`) into the record
without validation, so the field type must be able to say so. -/

/-- A primitive JSON value. -/
inductive JsPrim
  | nullv
  | jbool (b : Bool)
  | num (q : ℚ)
  | str (s : String)
deriving DecidableEq

/-- A JavaScript runtime value as it appears in a `LogEntry` field:
`undefined`, a primitive, a (flat) object produced by `JSON.parse`, or a
`Date` object remembered by the argument it was constructed from. -/
inductive JsVal
  | undefv
  | prim (p : JsPrim)
  | obj (fs : List (String × JsPrim))
  | dateOf (v : JsVal)
deriving DecidableEq

/-- JavaScript property read `v[k]`: a field of an object, `undefined` when
absent or when `v` is a primitive.  (Reads on `null` throw instead; the
caller handles that case before calling this.) -/
def jsGet (v : JsVal) (k : String) : JsVal :=
  match v with
  | .obj fs =>
    match fs.lookup k with
    | some p => .prim p
    | none => .undefv
  | _ => .undefv

/-- `interface LogEntry`, with JavaScript runtime values in every field. -/
structure LogEntry where
  timestamp : JsVal
  ip : JsVal
  method : JsVal
  path : JsVal
  status : JsVal
  bytes : JsVal
  userAgent : JsVal
  responseTime : JsVal
deriving DecidableEq

/-- `\S` of the common-log regex: not an ASCII whitespace character.
(The exotic Unicode space code points JavaScript also excludes never
occur in the inputs considered here.) -/
def nonSpace (c : Char) : Bool :=
  !(c == ' ' || c == '\t' || c == '\n' || c == '\r' || c == '\x0b' || c == '\x0c')

/-- Maximal munch of a character class: the longest run satisfying `p`,
with the remainder of the input. -/
def takeCls (p : Char → Bool) : List Char → List Char × List Char
  | [] => ([], [])
  | c :: cs =>
    if p c then
      let r := takeCls p cs
      (c :: r.1, r.2)
    else ([], c :: cs)

/-- Digit run to its numeric value — `parseInt` applied to the all-digit
capture groups of the common-log regex (which therefore never fails). -/
def digitsToNat : List Char → Nat
  | cs => cs.foldl (fun acc c => 10 * acc + (c.toNat - 48)) 0

/-- The part of the common-log regex after the request's closing quote:
` (\d+) (\d+) "[^"]*" "([^"]*)"$`.  Every class here excludes the
delimiter that follows it, so maximal munch is exactly the regex's
backtracking semantics.  Returns the status, bytes and user-agent
captures. -/
def parseTail (cs : List Char) : Option (List Char × List Char × List Char) :=
  match cs with
  | ' ' :: c1 =>
    let st := takeCls Char.isDigit c1
    if st.1.isEmpty then none else
    match st.2 with
    | ' ' :: c2 =>
      let byts := takeCls Char.isDigit c2
      if byts.1.isEmpty then none else
      match byts.2 with
      | ' ' :: '"' :: c3 =>
        let ref := takeCls (fun c => !(c == '"')) c3
        match ref.2 with
        | '"' :: ' ' :: '"' :: c4 =>
          let ua := takeCls (fun c => !(c == '"')) c4
          match ua.2 with
          | ['"'] => some (st.1, byts.1, ua.1)
          | _ => none
        | _ => none
      | _ => none
    | _ => none
  | _ => none

/-- The one genuinely backtracking piece of the regex: `\S+"` for the
request's protocol token.  `"` is itself a non-space, so the engine tries
the longest non-space run first and backs off one character at a time
until a `"` follows and the rest of the line matches. -/
def tryProtoLen (cs : List Char) : Nat → Option (List Char × List Char × List Char)
  | 0 => none
  | k + 1 =>
    (if (cs.take (k + 1)).all nonSpace then
      match cs.drop (k + 1) with
      | '"' :: rest => parseTail rest
      | _ => none
    else none).orElse fun _ => tryProtoLen cs k

/-- The full common-log regex
`^(\S+) \S+ \S+ \[([^\]]+)\] "(\S+) (\S+) \S+" (\d+) (\d+) "[^"]*" "([^"]*)"$`,
returning the captures (ip, timestamp, method, path, status, bytes,
user agent).  All classes except the protocol's `\S+"` exclude the
delimiter that follows them, so maximal munch matches the regex exactly;
the protocol uses `tryProtoLen`. -/
def matchCommonLog (cs : List Char) :
    Option (List Char × List Char × List Char × List Char × List Char × List Char × List Char) :=
  let ip := takeCls nonSpace cs
  if ip.1.isEmpty then none else
  match ip.2 with
  | ' ' :: r2 =>
    let f1 := takeCls nonSpace r2
    if f1.1.isEmpty then none else
    match f1.2 with
    | ' ' :: r4 =>
      let f2 := takeCls nonSpace r4
      if f2.1.isEmpty then none else
      match f2.2 with
      | ' ' :: '[' :: r6 =>
        let ts := takeCls (fun c => !(c == ']')) r6
        if ts.1.isEmpty then none else
        match ts.2 with
        | ']' :: ' ' :: '"' :: r8 =>
          let meth := takeCls nonSpace r8
          if meth.1.isEmpty then none else
          match meth.2 with
          | ' ' :: r10 =>
            let path := takeCls nonSpace r10
            if path.1.isEmpty then none else
            match path.2 with
            | ' ' :: r12 =>
              match tryProtoLen r12 r12.length with
              | some (st, byts, ua) => some (ip.1, ts.1, meth.1, path.1, st, byts, ua)
              | none => none
            | _ => none
          | _ => none
        | _ => none
      | _ => none
    | _ => none
  | _ => none

/-- `LogParser.parseCommonLog`.  The source fills `responseTime` with
`Math.floor(Math.random() * 500)`; the `Math.random()` draw is the
explicit `rand` argument here, since it is the one non-deterministic
input.  `new Date(match[2])` is modelled as a `Date` value remembering
its argument. -/
def parseCommonLog (rand : ℚ) (line : String) : Option LogEntry :=
  match matchCommonLog line.data with
  | none => none
  | some (ip, ts, meth, path, st, byts, ua) =>
    some {
      ip := .prim (.str (String.mk ip)),
      timestamp := .dateOf (.prim (.str (String.mk ts))),
      method := .prim (.str (String.mk meth)),
      path := .prim (.str (String.mk path)),
      status := .prim (.num (digitsToNat st)),
      bytes := .prim (.num (digitsToNat byts)),
      userAgent := .prim (.str (String.mk ua)),
      responseTime := .prim (.num ((⌊rand * 500⌋ : ℤ) : ℚ)) }

/-! #### Model of `JSON.parse`

`JSON.parse` is a language builtin, not repository code.  It is modelled
here on the subset of documents the claims exercise: optional whitespace,
integer literals, escape-free strings, `true`/`false`/`null`, and flat
objects over those; any other document is outside the model's domain and
maps to `none`.  Duplicate keys keep the last value, as in JavaScript. -/

/-- Skip JSON whitespace. -/
def skipWs (cs : List Char) : List Char :=
  cs.dropWhile fun c => c == ' ' || c == '\t' || c == '\n' || c == '\r'

/-- Store a key/value pair in an association list, overwriting an existing
binding in place (JavaScript object-property assignment). -/
def setAssoc {β : Type} : List (String × β) → String → β → List (String × β)
  | [], k, v => [(k, v)]
  | (k', v') :: rest, k, v =>
    if k' = k then (k, v) :: rest else (k', v') :: setAssoc rest k v

/-- Parse one primitive JSON value. -/
def parseJPrim (cs : List Char) : Option (JsPrim × List Char) :=
  match cs with
  | '"' :: c1 =>
    let r := takeCls (fun c => !(c == '"' || c == '\\')) c1
    match r.2 with
    | '"' :: rest => some (.str (String.mk r.1), rest)
    | _ => none
  | 't' :: 'r' :: 'u' :: 'e' :: rest => some (.jbool true, rest)
  | 'f' :: 'a' :: 'l' :: 's' :: 'e' :: rest => some (.jbool false, rest)
  | 'n' :: 'u' :: 'l' :: 'l' :: rest => some (.nullv, rest)
  | '-' :: c1 =>
    let ds := takeCls Char.isDigit c1
    if ds.1.isEmpty then none else some (.num (-(digitsToNat ds.1 : ℚ)), ds.2)
  | c :: _ =>
    if c.isDigit then
      let ds := takeCls Char.isDigit cs
      some (.num (digitsToNat ds.1), ds.2)
    else none
  | [] => none

/-- Parse the members of an object after its opening brace; `fuel` only
bounds the recursion depth and is larger than the input length. -/
def parseJMembers : Nat → List Char → List (String × JsPrim) →
    Option (List (String × JsPrim) × List Char)
  | 0, _, _ => none
  | fuel + 1, cs, acc =>
    match skipWs cs with
    | '"' :: c1 =>
      let r := takeCls (fun c => !(c == '"' || c == '\\')) c1
      match r.2 with
      | '"' :: rest =>
        match skipWs rest with
        | ':' :: c2 =>
          match parseJPrim (skipWs c2) with
          | some (v, c3) =>
            let acc := setAssoc acc (String.mk r.1) v
            match skipWs c3 with
            | ',' :: c4 => parseJMembers fuel c4 acc
            | '\x7d' :: c5 => some (acc, c5)
            | _ => none
          | none => none
        | _ => none
      | _ => none
    | _ => none

/-- The model of `JSON.parse` described above. -/
def jsonParse (line : String) : Option JsVal :=
  let cs := skipWs line.data
  let parsed : Option (JsVal × List Char) :=
    match cs with
    | '\x7b' :: c1 =>
      match skipWs c1 with
      | '\x7d' :: rest => some (.obj [], rest)
      | _ =>
        match parseJMembers (c1.length + 1) c1 [] with
        | some (fs, rest) => some (.obj fs, rest)
        | none => none
    | _ =>
      match parseJPrim cs with
      | some (p, rest) => some (.prim p, rest)
      | none => none
  match parsed with
  | some (v, rest) => if (skipWs rest).isEmpty then some v else none
  | none => none

/-- The record the JSON branch builds from a parsed value: every field is
copied verbatim by property read, with no presence or type check. -/
def jsonLogRecord (log : JsVal) : LogEntry :=
  { timestamp := .dateOf (jsGet log "timestamp"),
    ip := jsGet log "ip",
    method := jsGet log "method",
    path := jsGet log "path",
    status := jsGet log "status",
    bytes := jsGet log "bytes",
    userAgent := jsGet log "user_agent",
    responseTime := jsGet log "response_time" }

/-- `LogParser.parseJsonLog`: `JSON.parse` inside `try`.  A throwing parse
returns `null`; so does a successful parse of the document `null`, because
the subsequent property read throws a `TypeError` that the same `catch`
swallows.  Any other parsed value is copied into a `LogEntry` with no
validation. -/
def parseJsonLog (line : String) : Option LogEntry :=
  match jsonParse line with
  | none => none
  | some (.prim .nullv) => none
  | some log => some (jsonLogRecord log)

/-- The per-line parse used by the ingestion route (process-logs):
`logParser.parseCommonLog(line) || logParser.parseJsonLog(line)`. -/
def parseLogLine (rand : ℚ) (line : String) : Option LogEntry :=
  (parseCommonLog rand line).orElse fun _ => parseJsonLog line

/-! ### Cost calculator (src/ai-crawler-monitor/lib/cost-calculator.ts)

Decimal rate literals from the source are written as the equal
rationals (0.09 = 9/100, and so on). -/

/-- `interface TierPrice`; the last tier's bound is `Infinity` in the
source tables. -/
structure TierPrice where
  upToGB : QInf
  costPerGB : ℚ
deriving DecidableEq

/-- `interface HostingProvider`. -/
structure HostingProvider where
  name : String
  costPerGB : Option ℚ := none
  freeGBIncluded : Option ℚ := none
  tieredPricing : Option (List TierPrice) := none
deriving DecidableEq

/-- The aws tier table. -/
def awsTiers : List TierPrice :=
  [⟨.fin 10, 9/100⟩, ⟨.fin 40, 85/1000⟩, ⟨.fin 100, 7/100⟩, ⟨.fin 150, 5/100⟩, ⟨.inf, 3/100⟩]

/-- The fallback provider, also registered under the key "generic". -/
def genericProvider : HostingProvider :=
  { name := "Generic Provider", costPerGB := some (10/100), freeGBIncluded := some 0 }

/-- `CostCalculator.providers` in declaration order. -/
def providers : List (String × HostingProvider) := [
  ("aws", { name := "Amazon Web Services", freeGBIncluded := some 1, tieredPricing := some awsTiers }),
  ("cloudflare", { name := "Cloudflare", costPerGB := some (45/1000), freeGBIncluded := some 0 }),
  ("vercel", { name := "Vercel", costPerGB := some (40/100), freeGBIncluded := some 100 }),
  ("netlify", { name := "Netlify", costPerGB := some (55/100), freeGBIncluded := some 100 }),
  ("gcp", { name := "Google Cloud Platform", tieredPricing := some [⟨.fin 1, 0⟩, ⟨.fin 10, 12/100⟩, ⟨.fin 150, 11/100⟩, ⟨.inf, 8/100⟩] }),
  ("azure", { name := "Microsoft Azure", tieredPricing := some [⟨.fin 5, 87/1000⟩, ⟨.fin 10, 83/1000⟩, ⟨.fin 50, 7/100⟩, ⟨.fin 150, 5/100⟩, ⟨.inf, 3/100⟩] }),
  ("digitalocean", { name := "DigitalOcean", costPerGB := some (1/100), freeGBIncluded := some 1000 }),
  ("generic", genericProvider)]

/-- `CostCalculator.botCostMultipliers`. -/
def botCostMultipliers : List (String × ℚ) := [
  ("ai_training", 15/10), ("ai_scraper", 18/10), ("ai_search", 12/10),
  ("search_engine", 5/10), ("social_media", 3/10), ("seo_tool", 1),
  ("scraper", 15/10), ("unknown", 1)]

/-- `tier.upToGB - previousTierLimit`.  `previousTierLimit` is only ever
`Infinity` right before the loop exits (taking an unbounded tier zeroes
`remainingGB`, which breaks), so the `fin - inf` case is unreachable and
its value is irrelevant. -/
def qiSub : QInf → QInf → QInf
  | .inf, _ => .inf
  | .fin a, .fin b => .fin (a - b)
  | .fin _, .inf => .fin 0

/-- `Math.min(remainingGB, bound)` against a possibly infinite bound. -/
def qiMin (r : ℚ) : QInf → ℚ
  | .fin a => min r a
  | .inf => r

/-- The loop body of `calculateTieredCost`, with the mutable state
(`remainingGB`, `totalCost`, `previousTierLimit`) threaded explicitly. -/
def tieredLoop : ℚ → ℚ → QInf → List TierPrice → ℚ
  | _, totalCost, _, [] => totalCost
  | remainingGB, totalCost, prev, t :: rest =>
    let tierGB := qiMin remainingGB (qiSub t.upToGB prev)
    if 0 < tierGB then
      let totalCost := totalCost + tierGB * t.costPerGB
      let remainingGB := remainingGB - tierGB
      if remainingGB ≤ 0 then totalCost
      else tieredLoop remainingGB totalCost t.upToGB rest
    else
      if remainingGB ≤ 0 then totalCost
      else tieredLoop remainingGB totalCost prev rest

/-- `CostCalculator.calculateTieredCost`. -/
def calculateTieredCost (gb : ℚ) (tiers : List TierPrice) : ℚ :=
  tieredLoop gb 0 (.fin 0) tiers

/-- `interface CostBreakdown`; the optional `requests` member is never set
on this code path and is omitted. -/
structure CostBreakdown where
  bandwidthGB : ℚ
  bandwidthCost : ℚ
  total : ℚ
  monthly : ℚ
  yearly : ℚ
deriving DecidableEq

/-- `CostCalculator.calculateBandwidthCost`.  `if (freeGBIncluded)` is a
truthiness test, so `0` and `undefined` both skip the free-tier
subtraction; `costPerGB || 0` likewise. -/
def calculateBandwidthCost (bytesTransferred : ℚ) (provider : String) : CostBreakdown :=
  let gb := bytesTransferred / (1024 ^ 3)
  let pc := (providers.lookup provider).getD genericProvider
  let billableGB :=
    match pc.freeGBIncluded with
    | some f => if f = 0 then gb else max 0 (gb - f)
    | none => gb
  let cost :=
    match pc.tieredPricing with
    | some tiers => calculateTieredCost billableGB tiers
    | none => billableGB * jsOr pc.costPerGB 0
  { bandwidthGB := gb, bandwidthCost := cost, total := cost,
    monthly := cost * 30, yearly := cost * 365 }

/-- A bot-traffic record as consumed by `calculateSavingsByCategory`. -/
structure BotTrafficC where
  category : String
  bytesTransferred : ℚ
  requestCount : ℚ
deriving DecidableEq

/-- The multiplier-adjusted cost of one bot-traffic record:
`calculateBandwidthCost(bytes * (multipliers[category] || 1.0))`. -/
def categoryCost (provider : String) (bot : BotTrafficC) : CostBreakdown :=
  calculateBandwidthCost (bot.bytesTransferred * jsOr (botCostMultipliers.lookup bot.category) 1) provider

/-- Result shape of `calculateSavingsByCategory`; `byCategory` is the
object accumulated by keyed assignment, in key insertion order. -/
structure SavingsByCategory where
  total : ℚ
  monthly : ℚ
  yearly : ℚ
  byCategory : List (String × CostBreakdown)
deriving DecidableEq

/-- One iteration of the `for (const bot of botTraffic)` loop: overwrite
the category's breakdown, add its total to the running sum. -/
def savingsStep (provider : String) (acc : List (String × CostBreakdown) × ℚ)
    (bot : BotTrafficC) : List (String × CostBreakdown) × ℚ :=
  let cost := categoryCost provider bot
  (setAssoc acc.1 bot.category cost, acc.2 + cost.total)

/-- `CostCalculator.calculateSavingsByCategory`. -/
def calculateSavingsByCategory (botTraffic : List BotTrafficC) (provider : String) :
    SavingsByCategory :=
  let r := botTraffic.foldl (savingsStep provider) ([], 0)
  { total := r.2, monthly := r.2 * 30, yearly := r.2 * 365, byCategory := r.1 }

/-- `Math.ceil(a / b)` as JavaScript computes it where `b` may be zero and
`a` is positive: division by zero gives `Infinity`, whose ceiling is
`Infinity`. -/
def jsCeilDiv (a b : ℚ) : QInf :=
  if b = 0 then .inf else .fin ⌈a / b⌉

/-- Result shape of `calculateROI`; `breakEvenDays` and `roi` can carry the
`Infinity` sentinel. -/
structure ROIResult where
  breakEvenDays : QInf
  monthlySavings : ℚ
  yearlySavings : ℚ
  roi : QInf
deriving DecidableEq

/-- `CostCalculator.calculateROI`. -/
def calculateROI (currentBotTraffic : ℚ) (provider : String) (implementationCost : ℚ) :
    ROIResult :=
  let dailyCost := calculateBandwidthCost currentBotTraffic provider
  let monthlySavings := dailyCost.monthly
  let yearlySavings := dailyCost.yearly
  let breakEvenDays :=
    if 0 < implementationCost then jsCeilDiv implementationCost dailyCost.total else .fin 0
  let roi :=
    if 0 < implementationCost then
      .fin (((yearlySavings - implementationCost) / implementationCost) * 100)
    else .inf
  { breakEvenDays := breakEvenDays, monthlySavings := monthlySavings,
    yearlySavings := yearlySavings, roi := roi }

/-- A bot-traffic record as consumed by `generateRecommendations`. -/
structure BotTrafficR where
  botName : String
  category : String
  bytesTransferred : ℚ
  requestCount : ℚ
deriving DecidableEq

/-- The recommendation actions. -/
inductive RecAction
  | block
  | rate_limit
  | allow
deriving DecidableEq

/-- A recommendation record. -/
structure Recommendation where
  action : RecAction
  target : String
  reason : String
  savingsPerMonth : ℚ
  confidence : ℚ
deriving DecidableEq

/-- Models `Number.prototype.toFixed(2)` on the non-negative amounts it is
applied to: round half away from zero at two decimals and render. -/
def toFixed2 (q : ℚ) : String :=
  let n : ℤ := ⌊q * 100 + 1/2⌋
  let ip := n / 100
  let fp := (n % 100).toNat
  toString ip ++ "." ++ (if fp < 10 then "0" else "") ++ toString fp

/-- The decision chain of `generateRecommendations` for one bot-traffic
record: the first matching branch pushes one recommendation, a record
matching no branch pushes none. -/
def recommendationFor (provider : String) (bot : BotTrafficR) : Option Recommendation :=
  let cost := calculateBandwidthCost bot.bytesTransferred provider
  let monthlyCost := cost.monthly
  if bot.category = "ai_scraper" ∧ 10 < monthlyCost then
    some { action := .block, target := bot.botName,
           reason := "Aggressive scraper costing $" ++ toFixed2 monthlyCost ++ "/month with minimal SEO benefit",
           savingsPerMonth := monthlyCost, confidence := 95/100 }
  else if bot.category = "ai_training" ∧ 50 < monthlyCost then
    some { action := .rate_limit, target := bot.botName,
           reason := "AI training bot consuming excessive bandwidth. Rate limiting can reduce costs by 70%",
           savingsPerMonth := monthlyCost * (7/10), confidence := 85/100 }
  else if bot.category = "search_engine" then
    some { action := .allow, target := bot.botName,
           reason := "Essential for SEO and organic traffic",
           savingsPerMonth := 0, confidence := 1 }
  else if bot.category = "seo_tool" ∧ 20 < monthlyCost then
    some { action := .rate_limit, target := bot.botName,
           reason := "SEO tool with high bandwidth usage. Consider rate limiting to reduce costs",
           savingsPerMonth := monthlyCost * (5/10), confidence := 75/100 }
  else none

/-- `CostCalculator.generateRecommendations`: the conditional pushes over
the traffic list, then `sort((a, b) => b.savingsPerMonth -
a.savingsPerMonth)` — a stable sort by savings descending. -/
def generateRecommendations (botTraffic : List BotTrafficR) (provider : String) :
    List Recommendation :=
  (botTraffic.filterMap (recommendationFor provider)).mergeSort
    fun a b => b.savingsPerMonth ≤ a.savingsPerMonth

/-- The recommendation every search-engine record produces. -/
def seAllowRec (name : String) : Recommendation :=
  { action := .allow, target := name, reason := "Essential for SEO and organic traffic",
    savingsPerMonth := 0, confidence := 1 }

/-! ### Statement-side definitions -/

/-- Strict order on tier bounds as a proposition. -/
def QInf.ltP : QInf → QInf → Prop
  | .fin a, .fin b => a < b
  | .fin _, .inf => True
  | .inf, _ => False

/-- Consecutive tier bounds strictly increase. -/
def tierBoundsIncreasing : List TierPrice → Prop
  | [] => True
  | [_] => True
  | a :: b :: rest => QInf.ltP a.upToGB b.upToGB ∧ tierBoundsIncreasing (b :: rest)

/-- The final tier's bound is infinite. -/
def lastTierUnbounded : List TierPrice → Prop
  | [] => False
  | [t] => t.upToGB = .inf
  | _ :: b :: rest => lastTierUnbounded (b :: rest)

/-- A well-formed tier table in the sense of the spec: strictly increasing
bounds, final bound infinite, non-negative rates. -/
def wellFormedTiers (ts : List TierPrice) : Prop :=
  tierBoundsIncreasing ts ∧ lastTierUnbounded ts ∧ ∀ t ∈ ts, 0 ≤ t.costPerGB

/-- The multiplier-adjusted cost of the last record carrying a given
category, if any — what the claim says `byCategory` retains. -/
def lastCategoryCost (provider cat : String) : List BotTrafficC → Option CostBreakdown
  | [] => none
  | b :: rest =>
    match lastCategoryCost provider cat rest with
    | some c => some c
    | none => if b.category = cat then some (categoryCost provider b) else none

/-- The example line from the source's own comment in `parseCommonLog`. -/
def sampleLine : String :=
  "127.0.0.1 - - [10/Oct/2024:13:55:36 -0700] \"GET /api/data HTTP/1.1\" 200 2326 \"-\" \"Mozilla/5.0\""

/-- What `parseCommonLog` produces on `sampleLine` with random draw 0. -/
def sampleEntry : LogEntry :=
  { ip := .prim (.str "127.0.0.1"),
    timestamp := .dateOf (.prim (.str "10/Oct/2024:13:55:36 -0700")),
    method := .prim (.str "GET"),
    path := .prim (.str "/api/data"),
    status := .prim (.num ((200 : ℕ) : ℚ)),
    bytes := .prim (.num ((2326 : ℕ) : ℚ)),
    userAgent := .prim (.str "Mozilla/5.0"),
    responseTime := .prim (.num ((⌊(0 : ℚ) * 500⌋ : ℤ) : ℚ)) }

/-- A search-engine traffic record used as a concrete witness input. -/
def gbotRecord : BotTrafficR :=
  { botName := "Googlebot", category := "search_engine", bytesTransferred := 0, requestCount := 0 }

/-! ### Helper lemmas -/

/-- `find?` returns the element at position `i` when it satisfies the
predicate and everything before position `i` does not. -/
theorem find?_of_take_all {α : Type} (p : α → Bool) :
    ∀ (l : List α) (i : ℕ) (a : α), l[i]? = some a → p a = true →
      (l.take i).all (fun x => !p x) = true → l.find? p = some a
  | [], i, a, hget, _, _ => by simp at hget
  | x :: xs, 0, a, hget, hp, _ => by
    simp at hget
    subst hget
    simp [List.find?_cons, hp]
  | x :: xs, i + 1, a, hget, hp, htake => by
    simp [List.take_succ_cons, List.all_cons] at htake
    rw [List.find?_cons, show p x = false by simpa using htake.1]
    exact find?_of_take_all p xs i a (by simpa using hget) hp
      (List.all_eq_true.mpr fun y hy => by simpa using htake.2 y hy)

/-- No signature pattern matches the empty user agent. -/
theorem no_signature_matches_empty :
    ∀ e ∈ signatures, pmatch e.2.pattern "" = false := by decide

/-- Claim C1: for every user-agent string matched by at least one registry
pattern, `detect` returns the first matching signature in declared order —
`isBot` true, that signature's canonical name, confidence exactly 0.95,
and the signature's category, severity, description and recommendation;
in particular an earlier-declared signature always beats a later one. -/
theorem detect_first_signature_match (ua : String) (i : ℕ) (e : String × BotSignature)
    (hget : signatures[i]? = some e) (hp : pmatch e.2.pattern ua = true)
    (hfirst : (signatures.take i).all (fun x => !pmatch x.2.pattern ua) = true) :
    detect ua = { isBot := true, botName := some e.1, category := some e.2.category,
                  severity := some e.2.severity, description := some e.2.description,
                  recommendation := some e.2.recommendation, confidence := 95/100 } := by
  obtain ⟨name, s⟩ := e
  have hne : ua ≠ "" := by
    intro h
    subst h
    have := no_signature_matches_empty (name, s) (List.getElem?_mem hget)
    rw [hp] at this
    cases this
  rw [detect, if_neg hne, find?_of_take_all _ signatures i (name, s) hget hp hfirst]

/-- Witness for C1 at the Googlebot signature (registry position 7) and a
real Googlebot user-agent string. -/
theorem detect_first_signature_match_witness :
    detect "Mozilla/5.0 (compatible; Googlebot/2.1; +http://www.google.com/bot.html)" =
      { isBot := true, botName := some "Googlebot", category := some "search_engine",
        severity := some "low", description := some "Google search crawler",
        recommendation := some "allow", confidence := 95/100 } :=
  detect_first_signature_match _ 7
    ("Googlebot", { pattern := .ci "Googlebot", category := "search_engine", severity := "low", description := "Google search crawler", recommendation := "allow" })
    (by decide) (by decide) (by decide)

/-- Claim C5: every detection result satisfies the invariants — a result
with `isBot` true carries a non-null `botName`, and `confidence` always
lies in the closed interval from 0 to 1. -/
theorem detect_result_invariants (ua : String) :
    ((detect ua).isBot = true → (detect ua).botName ≠ none) ∧
    0 ≤ (detect ua).confidence ∧ (detect ua).confidence ≤ 1 := by
  rw [detect]
  by_cases h : ua = ""
  · rw [if_pos h]
    exact ⟨fun hb => by simp [notBotResult] at hb, by norm_num [notBotResult], by norm_num [notBotResult]⟩
  · rw [if_neg h]
    rcases hs : signatures.find? (fun e => pmatch e.2.pattern ua) with _ | ⟨name, s⟩
    · rw [hs]
      rcases hg : genericPatterns.find? (fun g => pmatch g.1 ua) with _ | ⟨p, conf⟩
      · rw [hg]
        exact ⟨fun hb => by simp [notBotResult] at hb, by norm_num [notBotResult], by norm_num [notBotResult]⟩
      · rw [hg]
        have hmem := List.mem_of_find?_eq_some hg
        have hconf : conf = 8/10 ∨ conf = 7/10 ∨ conf = 9/10 := by
          simp [genericPatterns, Prod.ext_iff] at hmem
          tauto
        refine ⟨fun _ => by simp, ?_, ?_⟩ <;> rcases hconf with h' | h' | h' <;> subst h' <;> norm_num
    · rw [hs]
      exact ⟨fun _ => by simp, by norm_num, by norm_num⟩

/-- Witness for C5 at a generic-pattern hit. -/
theorem detect_result_invariants_witness :
    (detect "curl/7.1").botName ≠ none ∧
    0 ≤ (detect "curl/7.1").confidence ∧ (detect "curl/7.1").confidence ≤ 1 :=
  ⟨(detect_result_invariants "curl/7.1").1 (by decide),
   (detect_result_invariants "curl/7.1").2.1, (detect_result_invariants "curl/7.1").2.2⟩

/-- Claim C6: an empty or absent user agent yields the not-a-bot result
with null name/category/severity and confidence exactly 1.0, and so does
any non-empty user agent matching no registry signature and no generic
heuristic pattern. -/
theorem detect_empty_and_no_match :
    detectOpt none = { isBot := false, botName := none, category := none,
                       severity := none, confidence := 1 } ∧
    detect "" = { isBot := false, botName := none, category := none,
                  severity := none, confidence := 1 } ∧
    ∀ ua : String, ua ≠ "" →
      signatures.all (fun e => !pmatch e.2.pattern ua) = true →
      genericPatterns.all (fun g => !pmatch g.1 ua) = true →
      detect ua = { isBot := false, botName := none, category := none,
                    severity := none, confidence := 1 } := by
  refine ⟨rfl, rfl, fun ua hne hs hg => ?_⟩
  have h1 : signatures.find? (fun e => pmatch e.2.pattern ua) = none :=
    List.find?_eq_none.mpr fun x hx => by simpa using List.all_eq_true.mp hs x hx
  have h2 : genericPatterns.find? (fun g => pmatch g.1 ua) = none :=
    List.find?_eq_none.mpr fun x hx => by simpa using List.all_eq_true.mp hg x hx
  rw [detect, if_neg hne, h1, h2]
  rfl

/-- Witness for C6 at a browser user agent matching nothing. -/
theorem detect_empty_and_no_match_witness :
    detect "Mozilla/5.0 (X11; Linux x86_64)" =
      { isBot := false, botName := none, category := none,
        severity := none, confidence := 1 } :=
  detect_empty_and_no_match.2.2 _ (by decide) (by decide) (by decide)

/-- Claim C3 (code defect): the source fills `responseTime` from
`Math.random()`, so parsing the very example line documented in the source
gives different records under different random draws — the parse is not
deterministic and the placeholder is not fixed. -/
theorem parseCommonLog_random_response_time :
    parseCommonLog (1/2) sampleLine ≠ parseCommonLog 0 sampleLine := by
  have h0 : (parseCommonLog 0 sampleLine).map (fun e => e.responseTime)
      = some (.prim (.num ((⌊(0 : ℚ) * 500⌋ : ℤ) : ℚ))) := rfl
  have h1 : (parseCommonLog (1/2) sampleLine).map (fun e => e.responseTime)
      = some (.prim (.num ((⌊(1/2 : ℚ) * 500⌋ : ℤ) : ℚ))) := rfl
  intro h
  rw [h, h0] at h1
  simp only [Option.some.injEq, JsVal.prim.injEq, JsPrim.num.injEq] at h1
  norm_num at h1

/-- Claim C2 counterexample: the line holding an empty JSON object has no
status or bytes field at all, yet parse returns a record — with
`undefined` status — instead of rejecting the line with null. -/
theorem parseLogLine_missing_fields_not_rejected :
    parseLogLine 0 "\x7b\x7d" ≠ none ∧
    (parseLogLine 0 "\x7b\x7d").map (fun e => e.status) = some .undefv := by
  have h : parseLogLine 0 "\x7b\x7d" = some (jsonLogRecord (.obj [])) := rfl
  exact ⟨by rw [h]; exact Option.some_ne_none _, rfl⟩

/-- Claim C2 as amended: parse returns a record or null (it is total, never
throwing); the common-log branch indeed only returns records whose status
and bytes are natural numbers, but the JSON branch copies the parsed
value's fields verbatim with no validation, so a JSON value lacking the
required fields yields a partially-filled record rather than null. -/
theorem parse_common_validates_json_copies :
    (∀ (r : ℚ) (line : String) (e : LogEntry), parseCommonLog r line = some e →
      (∃ n : ℕ, e.status = .prim (.num n)) ∧ (∃ m : ℕ, e.bytes = .prim (.num m))) ∧
    (∀ log : JsVal, (jsonLogRecord log).status = jsGet log "status" ∧
      (jsonLogRecord log).bytes = jsGet log "bytes") := by
  constructor
  · intro r line e h
    rw [parseCommonLog] at h
    rcases hm : matchCommonLog line.data with _ | ⟨ip, ts, meth, path, st, byts, ua⟩
    · rw [hm] at h
      cases h
    · rw [hm] at h
      simp only [Option.some.injEq] at h
      subst h
      exact ⟨⟨digitsToNat st, rfl⟩, ⟨digitsToNat byts, rfl⟩⟩
  · intro log
    exact ⟨rfl, rfl⟩

/-- Witness for C2's amended statement on the source's example line and on
the empty JSON object. -/
theorem parse_common_validates_json_copies_witness :
    (∃ n : ℕ, sampleEntry.status = .prim (.num n)) ∧
    (jsonLogRecord (.obj [])).status = jsGet (.obj []) "status" :=
  ⟨(parse_common_validates_json_copies.1 0 sampleLine sampleEntry rfl).1,
   (parse_common_validates_json_copies.2 (.obj [])).1⟩

/-- Claim C4 counterexample: the output embeds `new Date().toISOString()`,
so two invocations with identical bot arguments but different clock
readings produce different text — the function is not deterministic in its
arguments alone. -/
theorem generateRobotsTxt_depends_on_clock :
    generateRobotsTxt "2024-01-01T00:00:00.000Z" [] [] ≠
      generateRobotsTxt "2024-01-02T00:00:00.000Z" [] [] := by decide

/-- A `+=` loop over a list appends the concatenation of the rendered
pieces. -/
theorem foldl_append_joinMap {α : Type} (f : α → String) :
    ∀ (l : List α) (a : String), l.foldl (fun c x => c ++ f x) a = a ++ joinMap f l
  | [], a => by simp [joinMap]
  | x :: xs, a => by
    rw [List.foldl_cons, foldl_append_joinMap f xs, joinMap, String.append_assoc]

/-- The blocked-bots loop of `generateRobotsTxt` as a concatenation. -/
theorem foldl_disallow (l : List String) (a : String) :
    l.foldl (fun c bot => c ++ ("User-agent: " ++ bot ++ "\n" ++ "Disallow: /\n\n")) a
      = a ++ joinMap disallowBlock l :=
  foldl_append_joinMap disallowBlock l a

/-- The rate-limited loop of `generateRobotsTxt` as a concatenation. -/
theorem foldl_crawl (l : List (String × ℚ)) (a : String) :
    l.foldl
      (fun c e => c ++ ("User-agent: " ++ e.1 ++ "\n" ++ "Crawl-delay: " ++ toString e.2 ++ "\n" ++ "Allow: /\n\n"))
      a = a ++ joinMap crawlDelayBlock l :=
  foldl_append_joinMap crawlDelayBlock l a

/-- Claim C4 as amended: with the generation timestamp taken as an explicit
input alongside the bot lists, the output is fully determined — equal,
character for character, to the canonical layout: header, the two
canonical search-engine allow rules, one disallow block per blocked bot,
one crawl-delay directive per rate-limited bot, then the default allow-all
with a sitemap pointer. -/
theorem generateRobotsTxt_layout (now : String) (blocked : List String)
    (rates : List (String × ℚ)) :
    generateRobotsTxt now blocked rates = robotsSpecLayout now blocked rates := by
  simp only [generateRobotsTxt, robotsSpecLayout]
  split_ifs <;>
    (try simp only [foldl_disallow, foldl_crawl]) <;>
      simp only [String.append_assoc, String.append_empty, String.empty_append]

/-- The accumulated total never decreases as the tier loop runs, given
non-negative rates. -/
theorem tieredLoop_ge : ∀ (ts : List TierPrice), (∀ t ∈ ts, 0 ≤ t.costPerGB) →
    ∀ (r t0 : ℚ) (prev : QInf), t0 ≤ tieredLoop r t0 prev ts
  | [], _, r, t0, prev => by simp [tieredLoop]
  | t :: rest, h, r, t0, prev => by
    have hρ : 0 ≤ t.costPerGB := h t (List.mem_cons_self t rest)
    have hrest : ∀ x ∈ rest, 0 ≤ x.costPerGB := fun x hx => h x (List.mem_cons_of_mem t hx)
    simp only [tieredLoop]
    set cap := qiMin r (qiSub t.upToGB prev) with hcapdef
    have hgeR : t0 + cap * t.costPerGB ≤
        tieredLoop (r - cap) (t0 + cap * t.costPerGB) t.upToGB rest :=
      tieredLoop_ge rest hrest _ _ _
    have hgeS : t0 ≤ tieredLoop r t0 prev rest := tieredLoop_ge rest hrest _ _ _
    rcases le_or_lt cap 0 with hs | hs
    · split_ifs <;> linarith
    · have hp : 0 ≤ cap * t.costPerGB := mul_nonneg hs.le hρ
      split_ifs <;> linarith

/-- The tier loop is monotone in both the remaining gigabytes and the
accumulated total, given non-negative rates. -/
theorem tieredLoop_mono : ∀ (ts : List TierPrice), (∀ t ∈ ts, 0 ≤ t.costPerGB) →
    ∀ (prev : QInf) (t01 t02 r1 r2 : ℚ), t01 ≤ t02 → r1 ≤ r2 →
      tieredLoop r1 t01 prev ts ≤ tieredLoop r2 t02 prev ts
  | [], _, prev, t01, t02, r1, r2, ht, _ => by simpa [tieredLoop] using ht
  | t :: rest, h, prev, t01, t02, r1, r2, ht, hr => by
    have hρ : 0 ≤ t.costPerGB := h t (List.mem_cons_self t rest)
    have hrest : ∀ x ∈ rest, 0 ≤ x.costPerGB := fun x hx => h x (List.mem_cons_of_mem t hx)
    simp only [tieredLoop]
    cases hc : qiSub t.upToGB prev with
    | inf =>
      simp only [qiMin, sub_self]
      have hmul : r1 * t.costPerGB ≤ r2 * t.costPerGB := mul_le_mul_of_nonneg_right hr hρ
      rcases le_or_lt r2 0 with hs2 | hs2
      · split_ifs <;> linarith
      · have hp2 : 0 ≤ r2 * t.costPerGB := mul_nonneg hs2.le hρ
        split_ifs <;> linarith
    | fin a =>
      simp only [qiMin]
      have hm : min r1 a ≤ min r2 a := min_le_min hr le_rfl
      have hsub : r1 - min r1 a ≤ r2 - min r2 a := by
        rcases le_total r1 a with h' | h'
        · rw [min_eq_left h', sub_self]
          exact sub_nonneg.mpr (min_le_left r2 a)
        · rw [min_eq_right h', min_eq_right (le_trans h' hr)]
          linarith
      have hmulle : min r1 a * t.costPerGB ≤ min r2 a * t.costPerGB :=
        mul_le_mul_of_nonneg_right hm hρ
      have hrecA : tieredLoop (r1 - min r1 a) (t01 + min r1 a * t.costPerGB) t.upToGB rest ≤
          tieredLoop (r2 - min r2 a) (t02 + min r2 a * t.costPerGB) t.upToGB rest :=
        tieredLoop_mono rest hrest t.upToGB _ _ _ _ (by linarith) hsub
      have hrecB : tieredLoop r1 t01 prev rest ≤ tieredLoop r2 t02 prev rest :=
        tieredLoop_mono rest hrest prev _ _ _ _ ht hr
      have hge1 : t02 + min r2 a * t.costPerGB ≤
          tieredLoop (r2 - min r2 a) (t02 + min r2 a * t.costPerGB) t.upToGB rest :=
        tieredLoop_ge rest hrest _ _ _
      have hge2 : t02 ≤ tieredLoop r2 t02 prev rest := tieredLoop_ge rest hrest _ _ _
      have h2a : min r2 a ≤ a := min_le_right r2 a
      rcases le_or_lt (min r2 a) 0 with hs2 | hs2
      · split_ifs <;> linarith
      · have hp2 : 0 ≤ min r2 a * t.costPerGB := mul_nonneg hs2.le hρ
        rcases le_or_lt (min r1 a) 0 with hs1 | hs1
        · rcases min_le_iff.mp hs1 with hra | hra
          · split_ifs <;> linarith
          · linarith
        · have hp1 : 0 ≤ min r1 a * t.costPerGB := mul_nonneg hs1.le hρ
          split_ifs <;> linarith

/-- Claim C7: over every well-formed tier table (strictly increasing
bounds, final bound infinite, non-negative rates) the tiered cost is
monotone non-decreasing in the gigabyte amount, and a single unbounded
tier charges exactly `gb * rate` on every non-negative `gb`. -/
theorem tieredCost_monotone_and_flat :
    (∀ (tiers : List TierPrice) (gb1 gb2 : ℚ), wellFormedTiers tiers → gb1 ≤ gb2 →
      calculateTieredCost gb1 tiers ≤ calculateTieredCost gb2 tiers) ∧
    (∀ (rate gb : ℚ), 0 ≤ rate → 0 ≤ gb →
      calculateTieredCost gb [⟨.inf, rate⟩] = gb * rate) := by
  constructor
  · intro tiers gb1 gb2 hwf h12
    exact tieredLoop_mono tiers hwf.2.2 (.fin 0) 0 0 gb1 gb2 le_rfl h12
  · intro rate gb hrate hgb
    rw [calculateTieredCost]
    simp only [tieredLoop, qiSub, qiMin]
    rcases hgb.lt_or_eq with h | h
    · rw [if_pos h, if_pos (show gb - gb ≤ 0 by simp)]
      ring
    · rw [← h]
      norm_num

/-- Witness for C7 on the aws tier table and on a single flat tier. -/
theorem tieredCost_monotone_and_flat_witness :
    wellFormedTiers awsTiers ∧
    calculateTieredCost 1 awsTiers ≤ calculateTieredCost 2 awsTiers ∧
    calculateTieredCost 3 [⟨.inf, 1/2⟩] = 3 * (1/2) := by
  have hwf : wellFormedTiers awsTiers := by
    refine ⟨?_, ?_, ?_⟩
    · simp only [awsTiers, tierBoundsIncreasing, QInf.ltP]
      norm_num
    · simp [awsTiers, lastTierUnbounded]
    · intro t ht
      fin_cases ht <;> norm_num
  exact ⟨hwf, tieredCost_monotone_and_flat.1 awsTiers 1 2 hwf (by norm_num),
    tieredCost_monotone_and_flat.2 (1/2) 3 (by norm_num) (by norm_num)⟩

/-- Claim C9: `calculateROI` returns `ceil(implementationCost / dailyCost)`
break-even days and the percentage ROI formula when the implementation
cost is positive, and 0 days with the positive-infinity ROI sentinel when
it is zero; its savings fields are the daily bandwidth cost scaled
monthly and yearly. -/
theorem calculateROI_formulas (bytes : ℚ) (provider : String) (impl : ℚ) :
    ((0 < impl →
        (calculateROI bytes provider impl).breakEvenDays =
          jsCeilDiv impl (calculateBandwidthCost bytes provider).total ∧
        (calculateROI bytes provider impl).roi =
          .fin ((((calculateBandwidthCost bytes provider).yearly - impl) / impl) * 100)) ∧
      (impl = 0 →
        (calculateROI bytes provider impl).breakEvenDays = .fin 0 ∧
        (calculateROI bytes provider impl).roi = .inf)) ∧
    (calculateROI bytes provider impl).monthlySavings =
      (calculateBandwidthCost bytes provider).monthly ∧
    (calculateROI bytes provider impl).yearlySavings =
      (calculateBandwidthCost bytes provider).yearly := by
  refine ⟨⟨fun h => ?_, fun h => ?_⟩, rfl, rfl⟩
  · simp only [calculateROI]
    rw [if_pos h, if_pos h]
    exact ⟨rfl, rfl⟩
  · subst h
    simp only [calculateROI]
    rw [if_neg (lt_irrefl 0), if_neg (lt_irrefl 0)]
    exact ⟨rfl, rfl⟩

/-- Witness for C9 with one gigabyte of traffic on the generic provider,
at implementation costs 1 and 0. -/
theorem calculateROI_formulas_witness :
    0 < (1 : ℚ) ∧
    (calculateROI (2 ^ 30) "generic" 1).breakEvenDays =
      jsCeilDiv 1 (calculateBandwidthCost (2 ^ 30) "generic").total ∧
    (calculateROI (2 ^ 30) "generic" 0).roi = .inf :=
  ⟨by norm_num, ((calculateROI_formulas (2 ^ 30) "generic" 1).1.1 (by norm_num)).1,
   ((calculateROI_formulas (2 ^ 30) "generic" 0).1.2 rfl).2⟩

/-- Keyed assignment then lookup: the assigned key reads back the new
value, every other key is untouched. -/
theorem lookup_setAssoc {β : Type} (l : List (String × β)) (k k' : String) (v : β) :
    (setAssoc l k v).lookup k' = if k' = k then some v else l.lookup k' := by
  induction l with
  | nil =>
    simp only [setAssoc, List.lookup]
    by_cases h : k' = k
    · rw [show (k' == k) = true from beq_iff_eq.mpr h, if_pos h]
    · rw [show (k' == k) = false from beq_eq_false_iff_ne.mpr h, if_neg h]
  | cons p rest ih =>
    obtain ⟨k0, v0⟩ := p
    simp only [setAssoc]
    by_cases h : k0 = k
    · rw [if_pos h]
      subst h
      simp only [List.lookup]
      by_cases h' : k' = k0
      · rw [show (k' == k0) = true from beq_iff_eq.mpr h', if_pos h']
      · rw [show (k' == k0) = false from beq_eq_false_iff_ne.mpr h', if_neg h']
    · rw [if_neg h]
      simp only [List.lookup]
      by_cases h' : k' = k0
      · rw [show (k' == k0) = true from beq_iff_eq.mpr h']
        subst h'
        rw [if_neg fun hh => h hh]
      · rw [show (k' == k0) = false from beq_eq_false_iff_ne.mpr h', ih]

/-- Folding the savings loop leaves, for each category key, the cost of
the last record carrying it, else whatever the accumulator held. -/
theorem savings_foldl_lookup (provider cat : String) :
    ∀ (l : List BotTrafficC) (acc : List (String × CostBreakdown) × ℚ),
      (l.foldl (savingsStep provider) acc).1.lookup cat =
        match lastCategoryCost provider cat l with
        | some c => some c
        | none => acc.1.lookup cat := by
  intro l
  induction l with
  | nil => intro acc; simp [lastCategoryCost]
  | cons b rest ih =>
    intro acc
    rw [List.foldl_cons, ih]
    simp only [lastCategoryCost, savingsStep]
    cases hlast : lastCategoryCost provider cat rest with
    | some c => rfl
    | none =>
      rw [lookup_setAssoc]
      by_cases h : b.category = cat
      · rw [if_pos h.symm, if_pos h]
      · rw [if_neg (fun hh => h hh.symm), if_neg h]

/-- Folding the savings loop adds every record's cost to the running
total. -/
theorem savings_foldl_total (provider : String) :
    ∀ (l : List BotTrafficC) (acc : List (String × CostBreakdown) × ℚ),
      (l.foldl (savingsStep provider) acc).2 =
        acc.2 + (l.map fun b => (categoryCost provider b).total).sum := by
  intro l
  induction l with
  | nil => intro acc; simp
  | cons b rest ih =>
    intro acc
    rw [List.foldl_cons, ih]
    simp only [savingsStep, List.map_cons, List.sum_cons]
    ring

/-- Claim C10: when records share a category, `byCategory` keeps only the
breakdown of the last such record (earlier ones are overwritten), while
`total` sums the per-record costs over all records, and `monthly`/`yearly`
scale that total by 30 and 365. -/
theorem savingsByCategory_overwrite_and_total (traffic : List BotTrafficC)
    (provider cat : String) :
    (calculateSavingsByCategory traffic provider).byCategory.lookup cat =
      lastCategoryCost provider cat traffic ∧
    (calculateSavingsByCategory traffic provider).total =
      (traffic.map fun b => (categoryCost provider b).total).sum ∧
    (calculateSavingsByCategory traffic provider).monthly =
      (calculateSavingsByCategory traffic provider).total * 30 ∧
    (calculateSavingsByCategory traffic provider).yearly =
      (calculateSavingsByCategory traffic provider).total * 365 := by
  refine ⟨?_, ?_, rfl, rfl⟩
  · simp only [calculateSavingsByCategory]
    rw [savings_foldl_lookup]
    cases lastCategoryCost provider cat traffic <;> rfl
  · simp only [calculateSavingsByCategory]
    rw [savings_foldl_total]
    simp

/-- The decision chain on a search-engine record always takes the
unconditional allow branch. -/
theorem recommendationFor_search_engine (provider : String) (bot : BotTrafficR)
    (h : bot.category = "search_engine") :
    recommendationFor provider bot = some (seAllowRec bot.botName) := by
  simp only [recommendationFor]
  rw [if_neg fun hc => by rw [h] at hc; exact absurd hc.1 (by decide)]
  rw [if_neg fun hc => by rw [h] at hc; exact absurd hc.1 (by decide)]
  rw [if_pos h]
  rfl

/-- Counting an element of a `filterMap` counts the inputs mapped onto
it. -/
theorem count_filterMap {α β : Type} [DecidableEq β] (f : α → Option β) (b : β) :
    ∀ l : List α, (l.filterMap f).count b = l.countP fun a => f a == some b
  | [] => rfl
  | a :: l => by
    rw [List.filterMap_cons]
    cases hfa : f a with
    | none =>
      simp only [List.countP_cons, hfa]
      rw [count_filterMap f b l]
      simp
    | some x =>
      simp only [List.countP_cons, hfa, List.count_cons]
      rw [count_filterMap f b l]
      simp [beq_iff_eq]

/-- A produced recommendation equals the search-engine allow record for
`name` exactly when the input record is a search-engine record named
`name`: the other branches emit a different action or nothing. -/
theorem recFor_eq_seAllow_iff (provider : String) (b : BotTrafficR) (name : String) :
    (recommendationFor provider b == some (seAllowRec name)) = true ↔
      (b.category == "search_engine" && b.botName == name) = true := by
  simp only [beq_iff_eq, Bool.and_eq_true]
  constructor
  · intro h
    by_cases hcat : b.category = "search_engine"
    · rw [recommendationFor_search_engine provider b hcat] at h
      injection h with h'
      have hn : b.botName = name := by
        have := congrArg Recommendation.target h'
        simpa [seAllowRec] using this
      exact ⟨hcat, hn⟩
    · exfalso
      revert h
      simp only [recommendationFor]
      split_ifs with h1 h2 h3
      · intro h
        injection h with h'
        have := congrArg Recommendation.action h'
        simp [seAllowRec] at this
      · intro h
        injection h with h'
        have := congrArg Recommendation.action h'
        simp [seAllowRec] at this
      · intro h
        injection h with h'
        have := congrArg Recommendation.action h'
        simp [seAllowRec] at this
      · intro h
        simp at h
  · rintro ⟨h1, h2⟩
    rw [recommendationFor_search_engine provider b h1, h2]

/-- Claim C8: every search-engine traffic record yields exactly one
recommendation — allow, zero savings, confidence 1.0 — independent of its
cost, and never a block or rate-limit one: the decision chain sends every
search-engine record to the allow branch, and the sorted output contains
exactly one such allow record per matching input record. -/
theorem recommendations_search_engine_allow :
    (∀ (provider : String) (bot : BotTrafficR), bot.category = "search_engine" →
      recommendationFor provider bot = some (seAllowRec bot.botName)) ∧
    (∀ (provider : String) (traffic : List BotTrafficR) (name : String),
      (generateRecommendations traffic provider).count (seAllowRec name) =
        traffic.countP fun b => b.category == "search_engine" && b.botName == name) := by
  refine ⟨recommendationFor_search_engine, ?_⟩
  intro provider traffic name
  rw [generateRecommendations, (List.mergeSort_perm _ _).count_eq, count_filterMap]
  exact List.countP_congr fun b _ => recFor_eq_seAllow_iff provider b name

/-- Witness for C8 on a single Googlebot search-engine record. -/
theorem recommendations_search_engine_allow_witness :
    recommendationFor "generic" gbotRecord = some (seAllowRec gbotRecord.botName) ∧
    (generateRecommendations [gbotRecord] "generic").count (seAllowRec "Googlebot") =
      [gbotRecord].countP fun b => b.category == "search_engine" && b.botName == "Googlebot" :=
  ⟨recommendations_search_engine_allow.1 "generic" gbotRecord rfl,
   recommendations_search_engine_allow.2 "generic" [gbotRecord] "Googlebot"⟩
